import Mathlib

/-!
Verification of the transit certificate-binding subsystem
(`builtin/logical/transit/path_certificates.go`).

The Go handlers `pathSignCsrWrite` and `pathSetCertificateWrite`, together
with the helpers `parseCsr`, `parseCertificateChain` and
`hasSingleLeafCertificate`, are embedded shallowly as pure Lean functions.
External collaborators (the Go standard library PEM/X.509 codec and the
keysutil key-version store) are modelled at their interface boundary:

* A PEM-encoded string is abstracted by the observable outcome of the
  standard library calls made on it.  `encoding/pem.Decode` skips leading
  garbage and returns the first PEM block together with the remainder, or
  nil when no block is present in a non-empty input; so, at the boundary of
  this subsystem, a chain input is fully described by the ordered list of
  PEM blocks decoded from it (each tagged with the result of
  `x509.ParseCertificate` on its bytes) plus whether a non-empty undecodable
  remainder follows the last block.  A CSR input is described by the fate of
  the single `pem.Decode` / `x509.ParseCertificateRequest` call made on it.

* A keysutil `Policy` is modelled as a record carrying the key type, the
  latest version, and the behaviour of the three store operations the
  handlers call (`CreateCsr`, `ValidateLeafCertKeyMatch`,
  `PersistCertificateChain`) as function-valued fields.

* Mutation of the persisted per-version certificate state happens only
  through `PersistCertificateChain`; each handler therefore returns, next
  to its result, the list of persist calls it performed.  Locking
  (`p.Lock` / `p.Unlock`) is a concurrency primitive with no functional
  content and is not part of the embedding.

Machine integers: the Go counter in `hasSingleLeafCertificate` is a `uint8`,
embedded as a natural number reduced modulo 256 at each increment.
-/

namespace Transit

/-- The `crypto/x509` public-key algorithm enumeration
(`UnknownPublicKeyAlgorithm`, `RSA`, `DSA`, `ECDSA`, `Ed25519`). -/
inductive PublicKeyAlgorithm where
  | unknown
  | rsa
  | dsa
  | ecdsa
  | ed25519
deriving DecidableEq, Repr

/-- The keysutil key-type enumeration referenced by the handlers: the seven
signing types named in the `switch` of `pathSetCertificateWrite` plus the
symmetric (non-signing) types. -/
inductive KeyType where
  | aes128_gcm96
  | aes256_gcm96
  | chacha20_poly1305
  | ed25519
  | ecdsa_p256
  | ecdsa_p384
  | ecdsa_p521
  | rsa2048
  | rsa3072
  | rsa4096
  | hmac
deriving DecidableEq, Repr

/-- `keysutil.KeyType.SigningSupported`: true exactly for the asymmetric
ECDSA / Ed25519 / RSA types, false for the symmetric types. -/
def KeyType.signingSupported : KeyType → Bool
  | .ecdsa_p256 | .ecdsa_p384 | .ecdsa_p521 => true
  | .ed25519 => true
  | .rsa2048 | .rsa3072 | .rsa4096 => true
  | .aes128_gcm96 | .aes256_gcm96 | .chacha20_poly1305 | .hmac => false

/-- The fields of an `x509.Certificate` read by this subsystem.  The public
key itself is opaque here (only handed to the store for comparison), so it
is abstracted as a natural number. -/
structure Certificate where
  publicKeyAlgorithm : PublicKeyAlgorithm
  basicConstraintsValid : Bool
  isCA : Bool
  publicKey : Nat
deriving DecidableEq, Repr

/-- The fields of an `x509.CertificateRequest` this subsystem passes
through.  The zero value (empty subject) is the default template.  -/
structure CertificateRequest where
  subject : String := ""
deriving DecidableEq, Repr

/-- Decoding failures of the codec helpers, one constructor per distinct
error return in the Go source. -/
inductive CodecErr where
  /-- A `pem.Decode` call returned nil on a non-empty input. -/
  | pemDecodeFailed
  /-- An `x509.ParseCertificate` / `ParseCertificateRequest` call failed. -/
  | parseFailed
  /-- The chain input yielded zero PEM blocks. -/
  | noCertificates
deriving DecidableEq, Repr

/-- Abstraction of the CSR input string at the codec boundary: the input is
empty, or `pem.Decode` finds no block, or it finds a first block (of some
type string, with `x509.ParseCertificateRequest` on its bytes succeeding or
not, and with a possibly non-empty remainder after the block). -/
inductive CsrPemInput where
  | emptyString
  | noBlock
  | firstBlock (blockType : String) (parsed : Option CertificateRequest)
      (restNonempty : Bool)
deriving DecidableEq, Repr

/-- `parseCsr` from the Go source: the empty string yields the
default-initialised template; otherwise the single `pem.Decode` result is
parsed as a certificate request.  The block type string and the remainder
after the first block are discarded by the Go code (`block, _ :=
pem.Decode(...)`). -/
def parseCsr : CsrPemInput → Except CodecErr CertificateRequest
  | .emptyString => .ok {}
  | .noBlock => .error .pemDecodeFailed
  | .firstBlock _blockType parsed _restNonempty =>
    match parsed with
    | none => .error .parseFailed
    | some csr => .ok csr

/-- Abstraction of the certificate-chain input string at the codec
boundary: the ordered list of PEM blocks `pem.Decode` yields from it (each
carrying the result of `x509.ParseCertificate` on its bytes), and whether a
non-empty undecodable remainder follows the last block.  The empty string
is `⟨[], false⟩`; an input of pure garbage is `⟨[], true⟩`. -/
structure PemChainInput where
  blocks : List (Option Certificate)
  trailing : Bool
deriving DecidableEq, Repr

/-- The second loop of `parseCertificateChain`: parse each decoded block as
a certificate in order, stopping at the first failure. -/
def parseCertBlocks : List (Option Certificate) → Except CodecErr (List Certificate)
  | [] => .ok []
  | none :: _ => .error .parseFailed
  | some cert :: rest => (parseCertBlocks rest).map (cert :: ·)

/-- `parseCertificateChain` from the Go source.  The first loop strips PEM
blocks from the front until the remainder is empty, failing if `pem.Decode`
returns nil on a non-empty remainder (in the abstraction: a trailing
undecodable remainder).  Zero decoded blocks is an error.  Then each block
is parsed as a certificate, in input order. -/
def parseCertificateChain (s : PemChainInput) : Except CodecErr (List Certificate) :=
  if s.trailing then .error .pemDecodeFailed
  else if s.blocks.isEmpty then .error .noCertificates
  else parseCertBlocks s.blocks

/-- `hasSingleLeafCertificate` from the Go source.  The counter
`leafCertsCount` is a Go `uint8`, so each increment is taken modulo 256. -/
def hasSingleLeafCertificate (certChain : List Certificate) : Bool :=
  let leafCertsCount := certChain.foldl
    (fun acc cert =>
      if cert.basicConstraintsValid && !cert.isCA then (acc + 1) % 256 else acc)
    0
  leafCertsCount == 1

/-- A certificate is structurally a leaf: valid basic constraints and not a
CA (spec section 4.2). -/
def isLeafCert (cert : Certificate) : Bool :=
  cert.basicConstraintsValid && !cert.isCA

/-- Modelled from the spec: section 4.2 `CountLeafCertificates` — the exact
(unbounded) number of leaf certificates in a chain. -/
def countLeafCertificates (chain : List Certificate) : Nat :=
  (chain.filter isLeafCert).length

/-- The `switch p.Type` block of `pathSetCertificateWrite` deciding whether
the first certificate of the chain has a public-key algorithm compatible
with the transit key type. -/
def importKeyTypeMatches (t : KeyType) (leafCertPublicKeyAlgorithm : PublicKeyAlgorithm) : Bool :=
  match t with
  | .ecdsa_p256 | .ecdsa_p384 | .ecdsa_p521 => leafCertPublicKeyAlgorithm == .ecdsa
  | .ed25519 => leafCertPublicKeyAlgorithm == .ed25519
  | .rsa2048 | .rsa3072 | .rsa4096 => leafCertPublicKeyAlgorithm == .rsa
  | _ => false

/-- Modelled from the spec: the section 4.2 fixed compatibility table,
expressed as the section 9 finite mapping from key-type variant to its
single allowed algorithm (none for symmetric / non-signing types). -/
def keyTypeRequiredAlgorithm : KeyType → Option PublicKeyAlgorithm
  | .ecdsa_p256 | .ecdsa_p384 | .ecdsa_p521 => some .ecdsa
  | .ed25519 => some .ed25519
  | .rsa2048 | .rsa3072 | .rsa4096 => some .rsa
  | .aes128_gcm96 | .aes256_gcm96 | .chacha20_poly1305 | .hmac => none

/-- Modelled from the spec: `AlgorithmMatchesKeyType` of section 4.2. -/
def specAlgorithmMatchesKeyType (alg : PublicKeyAlgorithm) (t : KeyType) : Bool :=
  keyTypeRequiredAlgorithm t == some alg

/-- A keysutil `Policy` at the interface boundary used by the handlers:
its name, type and latest version, plus the behaviour of the three store
operations called here.  `createCsr` produces a PEM CSR string,
`validateLeafCertKeyMatch` answers whether the private material of a
version matches a public key (or fails with a store error), and
`persistCertificateChain` attaches a chain to a version (possibly failing
with a store error). -/
structure Policy where
  name : String
  type : KeyType
  latestVersion : Int
  createCsr : Int → CertificateRequest → Except String String
  validateLeafCertKeyMatch : Int → PublicKeyAlgorithm → Nat → Except String Bool
  persistCertificateChain : Int → List Certificate → Except String Unit

/-- The backend `GetPolicy` boundary: by name, a policy, no policy (key not
found), or a storage error. -/
abbrev PolicyStore := String → Except String (Option Policy)

/-- The request fields of the `keys/<name>/csr` endpoint. -/
structure SignCsrRequest where
  name : String
  version : Option Int
  csr : CsrPemInput

/-- The request fields of the `keys/<name>/set-certificate` endpoint. -/
structure SetCertificateRequest where
  name : String
  version : Option Int
  certificateChain : PemChainInput

/-- Everything a handler can fail with, one constructor per distinct error
return of the Go source.  User-facing validation errors
(`logical.ErrorResponse` + `ErrInvalidRequest`) and internal errors
(`nil, err`) are kept apart by constructor. -/
inductive TransitErr where
  /-- `GetPolicy` itself failed (internal, returned verbatim). -/
  | internal (msg : String)
  /-- key with provided name not found. -/
  | keyNotFound (name : String)
  /-- key type does not support signing. -/
  | signingUnsupported (t : KeyType)
  /-- `parseCsr` / `parseCertificateChain` failed. -/
  | malformedInput (e : CodecErr)
  /-- expected a single leaf certificate in the certificate chain. -/
  | invalidChain
  /-- leaf certificate public key type does not match the transit key type;
  carries the observed algorithm and the key type from the error message. -/
  | keyTypeMismatch (alg : PublicKeyAlgorithm) (t : KeyType)
  /-- could not validate key match (internal, `nil, err`). -/
  | keyMatchCheckFailed (msg : String)
  /-- leaf certificate public key does not match the key version selected. -/
  | keyMismatch
  /-- a `certChain[0]` access on an empty slice: a Go runtime panic. -/
  | panicIndexOutOfRange
  /-- failed to persist certificate chain (internal, `nil, err`). -/
  | persistenceFailed (msg : String)
deriving DecidableEq, Repr

/-- The success payload of the sign endpoint: key name, key type and the
PEM CSR. -/
structure SignCsrResponse where
  name : String
  type : KeyType
  csr : String
deriving DecidableEq, Repr

/-- One call to `Policy.PersistCertificateChain` — the only operation that
mutates the persisted per-version certificate state. -/
structure PersistCall where
  version : Int
  chain : List Certificate
deriving DecidableEq, Repr

/-- `pathSignCsrWrite` from the Go source: resolve the policy, check
signing support, parse the CSR template, resolve the version (explicit or
latest) and ask the store for a CSR.  The second component is the list of
persist calls performed (none on any path). -/
def pathSignCsrWrite (store : PolicyStore) (req : SignCsrRequest) :
    Except TransitErr SignCsrResponse × List PersistCall :=
  match store req.name with
  | .error e => (.error (.internal e), [])
  | .ok none => (.error (.keyNotFound req.name), [])
  | .ok (some p) =>
    if !p.type.signingSupported then (.error (.signingUnsupported p.type), [])
    else
      match parseCsr req.csr with
      | .error e => (.error (.malformedInput e), [])
      | .ok csrTemplate =>
        let signingKeyVersion := req.version.getD p.latestVersion
        match p.createCsr signingKeyVersion csrTemplate with
        | .error e => (.error (.internal e), [])
        | .ok pemCsr => (.ok ⟨p.name, p.type, pemCsr⟩, [])

/-- `pathSetCertificateWrite` from the Go source: resolve the policy, check
signing support, parse the chain, check for a single leaf, resolve the
version, compare `certChain[0]`'s algorithm against the key type, ask the
store whether `certChain[0]`'s public key matches the version, then call
`PersistCertificateChain`.  The Go code discards the return value of that
call (`p.PersistCertificateChain(...)` with no assignment), so the `err`
inspected by the following `if err != nil` is still the nil left by the
successful `ValidateLeafCertKeyMatch`; the embedding keeps that variable
explicit.  The second component is the list of persist calls performed. -/
def pathSetCertificateWrite (store : PolicyStore) (req : SetCertificateRequest) :
    Except TransitErr Unit × List PersistCall :=
  match store req.name with
  | .error e => (.error (.internal e), [])
  | .ok none => (.error (.keyNotFound req.name), [])
  | .ok (some p) =>
    if !p.type.signingSupported then (.error (.signingUnsupported p.type), [])
    else
      match parseCertificateChain req.certificateChain with
      | .error e => (.error (.malformedInput e), [])
      | .ok certChain =>
        if !hasSingleLeafCertificate certChain then (.error .invalidChain, [])
        else
          let keyVersion := req.version.getD p.latestVersion
          match certChain with
          | [] => (.error .panicIndexOutOfRange, [])
          | leafCert0 :: _ =>
            let leafCertPublicKeyAlgorithm := leafCert0.publicKeyAlgorithm
            if !importKeyTypeMatches p.type leafCertPublicKeyAlgorithm then
              (.error (.keyTypeMismatch leafCertPublicKeyAlgorithm p.type), [])
            else
              match p.validateLeafCertKeyMatch keyVersion leafCertPublicKeyAlgorithm
                  leafCert0.publicKey with
              | .error e => (.error (.keyMatchCheckFailed e), [])
              | .ok false => (.error .keyMismatch, [])
              | .ok true =>
                let _persistResult := p.persistCertificateChain keyVersion certChain
                let err : Option String := none
                match err with
                | some e => (.error (.persistenceFailed e), [⟨keyVersion, certChain⟩])
                | none => (.ok (), [⟨keyVersion, certChain⟩])

/-! Concrete fixtures used by the closed theorems and witnesses below. -/

/-- A leaf certificate with an RSA public key. -/
def rsaLeafCert : Certificate :=
  { publicKeyAlgorithm := .rsa, basicConstraintsValid := true, isCA := false, publicKey := 10 }

/-- A leaf certificate with an ECDSA public key. -/
def ecdsaLeafCert : Certificate :=
  { publicKeyAlgorithm := .ecdsa, basicConstraintsValid := true, isCA := false, publicKey := 20 }

/-- A CA certificate with an RSA public key. -/
def rsaCaCert : Certificate :=
  { publicKeyAlgorithm := .rsa, basicConstraintsValid := true, isCA := true, publicKey := 30 }

/-- An RSA-2048 policy whose store accepts every key-match query but whose
persistence operation always fails. -/
def failingPersistPolicy : Policy :=
  { name := "leaf"
    type := .rsa2048
    latestVersion := 1
    createCsr := fun _ _ => .ok ""
    validateLeafCertKeyMatch := fun _ _ _ => .ok true
    persistCertificateChain := fun _ _ => .error "storage write failed" }

/-- A store holding only `failingPersistPolicy` under the name "leaf". -/
def failingPersistStore : PolicyStore := fun n =>
  if n = "leaf" then .ok (some failingPersistPolicy) else .ok none

/-- An ECDSA-P256 policy whose store recognises exactly the public key of
`ecdsaLeafCert` (20) as matching, and persists successfully. -/
def ecdsaPolicy : Policy :=
  { name := "leaf"
    type := .ecdsa_p256
    latestVersion := 1
    createCsr := fun _ _ => .ok ""
    validateLeafCertKeyMatch := fun _ _ pk => .ok (pk == 20)
    persistCertificateChain := fun _ _ => .ok () }

/-- A store holding only `ecdsaPolicy` under the name "leaf". -/
def ecdsaStore : PolicyStore := fun n =>
  if n = "leaf" then .ok (some ecdsaPolicy) else .ok none

/-- An RSA-2048 policy accepting every key-match query and persisting
successfully. -/
def rsaPolicy : Policy :=
  { name := "leaf"
    type := .rsa2048
    latestVersion := 1
    createCsr := fun _ _ => .ok ""
    validateLeafCertKeyMatch := fun _ _ _ => .ok true
    persistCertificateChain := fun _ _ => .ok () }

/-- A store holding only `rsaPolicy` under the name "leaf". -/
def rsaStore : PolicyStore := fun n =>
  if n = "leaf" then .ok (some rsaPolicy) else .ok none

/-- A symmetric (non-signing) AES-256-GCM96 policy. -/
def aesPolicy : Policy :=
  { name := "sym"
    type := .aes256_gcm96
    latestVersion := 1
    createCsr := fun _ _ => .ok ""
    validateLeafCertKeyMatch := fun _ _ _ => .ok true
    persistCertificateChain := fun _ _ => .ok () }

/-- A store holding only `aesPolicy` under the name "sym". -/
def aesStore : PolicyStore := fun n =>
  if n = "sym" then .ok (some aesPolicy) else .ok none

/-- A chain input decoding to a single RSA leaf certificate. -/
def singleRsaLeafInput : PemChainInput := ⟨[some rsaLeafCert], false⟩

/-- A chain input decoding to an RSA CA certificate followed by the unique
leaf (an ECDSA certificate): the leaf is the second element. -/
def leafSecondInput : PemChainInput := ⟨[some rsaCaCert, some ecdsaLeafCert], false⟩

/-- A chain of 257 leaf certificates. -/
def chain257 : List Certificate := List.replicate 257 rsaLeafCert

/-- A chain input decoding to 257 RSA leaf certificates. -/
def chain257Input : PemChainInput := ⟨List.replicate 257 (some rsaLeafCert), false⟩

/-! Claims. -/

/-- C1: on a request passing every validation step but whose persistence
operation fails, `pathSetCertificateWrite` still reports success — the Go
code discards the return value of `PersistCertificateChain`, so the
persistence failure is never surfaced.  The first conjunct shows the
persistence operation of this store does fail on exactly the call the
handler makes. -/
theorem importCertificate_swallows_persist_failure :
    failingPersistPolicy.persistCertificateChain 1 [rsaLeafCert] =
      .error "storage write failed" ∧
    pathSetCertificateWrite failingPersistStore ⟨"leaf", none, singleRsaLeafInput⟩ =
      (.ok (), [⟨1, [rsaLeafCert]⟩]) :=
  ⟨rfl, rfl⟩

/-- C2 counterexample: a chain whose unique leaf certificate (ECDSA,
matching the ECDSA-P256 key both in algorithm and in key material) is the
second element, behind an RSA CA certificate.  The claim says the
certificate checked is the unique leaf regardless of position; the code
checks `certChain[0]` and thus rejects this import with a key-type
mismatch naming the CA certificate's RSA algorithm. -/
theorem importCertificate_checks_first_cert_not_leaf :
    countLeafCertificates [rsaCaCert, ecdsaLeafCert] = 1 ∧
    List.filter isLeafCert [rsaCaCert, ecdsaLeafCert] = [ecdsaLeafCert] ∧
    specAlgorithmMatchesKeyType ecdsaLeafCert.publicKeyAlgorithm ecdsaPolicy.type = true ∧
    ecdsaPolicy.validateLeafCertKeyMatch 1 .ecdsa ecdsaLeafCert.publicKey = .ok true ∧
    pathSetCertificateWrite ecdsaStore ⟨"leaf", none, leafSecondInput⟩ =
      (.error (.keyTypeMismatch .rsa .ecdsa_p256), []) :=
  ⟨rfl, rfl, rfl, rfl, rfl⟩

/-- C2 amended: after the single-leaf check passes, the certificate whose
public-key algorithm and public key are compared against the transit key
is the first certificate of the chain (which coincides with the unique
leaf only when the leaf appears first); the remainder of the import is
fully determined by that first certificate. -/
theorem importCertificate_uses_head_certificate
    (store : PolicyStore) (req : SetCertificateRequest) (p : Policy)
    (c0 : Certificate) (rest : List Certificate)
    (hstore : store req.name = .ok (some p))
    (hsign : p.type.signingSupported = true)
    (hparse : parseCertificateChain req.certificateChain = .ok (c0 :: rest))
    (hleaf : hasSingleLeafCertificate (c0 :: rest) = true) :
    pathSetCertificateWrite store req =
      if importKeyTypeMatches p.type c0.publicKeyAlgorithm then
        match p.validateLeafCertKeyMatch (req.version.getD p.latestVersion)
            c0.publicKeyAlgorithm c0.publicKey with
        | .error e => (.error (.keyMatchCheckFailed e), [])
        | .ok false => (.error .keyMismatch, [])
        | .ok true => (.ok (), [⟨req.version.getD p.latestVersion, c0 :: rest⟩])
      else (.error (.keyTypeMismatch c0.publicKeyAlgorithm p.type), []) := by
  unfold pathSetCertificateWrite
  rw [hstore, hparse]
  simp [hsign, hleaf]
  cases h : importKeyTypeMatches p.type c0.publicKeyAlgorithm <;> simp [h]

/-- C2 amended, witness: at a concrete store and request whose chain is
the single ECDSA leaf, the amended theorem applies and computes the import
result. -/
theorem importCertificate_uses_head_certificate_witness :
    pathSetCertificateWrite ecdsaStore ⟨"leaf", none, ⟨[some ecdsaLeafCert], false⟩⟩ =
      if importKeyTypeMatches ecdsaPolicy.type ecdsaLeafCert.publicKeyAlgorithm then
        match ecdsaPolicy.validateLeafCertKeyMatch
            ((none : Option Int).getD ecdsaPolicy.latestVersion)
            ecdsaLeafCert.publicKeyAlgorithm ecdsaLeafCert.publicKey with
        | .error e => (.error (.keyMatchCheckFailed e), [])
        | .ok false => (.error .keyMismatch, [])
        | .ok true =>
          (.ok (), [⟨(none : Option Int).getD ecdsaPolicy.latestVersion, [ecdsaLeafCert]⟩])
      else (.error (.keyTypeMismatch ecdsaLeafCert.publicKeyAlgorithm ecdsaPolicy.type), []) :=
  importCertificate_uses_head_certificate ecdsaStore
    ⟨"leaf", none, ⟨[some ecdsaLeafCert], false⟩⟩ ecdsaPolicy ecdsaLeafCert [] rfl rfl rfl rfl

set_option maxRecDepth 4000 in
/-- C3: the Go leaf counter is a `uint8`, so a chain of 257 leaf
certificates wraps the counter to 1 and passes the single-leaf check; the
full import then succeeds instead of failing with the invalid-chain error
the claim (and the spec invariant) require for chains with two or more
leaves. -/
theorem hasSingleLeafCertificate_uint8_wraps :
    countLeafCertificates chain257 = 257 ∧
    hasSingleLeafCertificate chain257 = true ∧
    pathSetCertificateWrite rsaStore ⟨"leaf", none, chain257Input⟩ =
      (.ok (), [⟨1, chain257⟩]) :=
  ⟨rfl, rfl, rfl⟩

/-- C4 counterexample: a non-empty CSR input whose first PEM block has
type "CERTIFICATE" (not the CSR type) and is followed by further input, so
it does not consist of exactly one PEM block of CSR type; `parseCsr`
nevertheless succeeds because the Go code discards both the block type and
the remainder. -/
theorem parseCsr_accepts_extra_blocks :
    parseCsr (.firstBlock "CERTIFICATE" (some {}) true) = .ok {} :=
  rfl

/-- C4 amended: the empty input yields the default template; a non-empty
input succeeds exactly when its first PEM block (of any type) parses as a
certificate request, everything after the first block being ignored;
otherwise it fails with the corresponding malformed-input error. -/
theorem parseCsr_first_block_only :
    parseCsr .emptyString = .ok {} ∧
    parseCsr .noBlock = .error .pemDecodeFailed ∧
    (∀ t r, parseCsr (.firstBlock t none r) = .error .parseFailed) ∧
    (∀ t t' c r r', parseCsr (.firstBlock t c r) = parseCsr (.firstBlock t' c r')) ∧
    (∀ t c r, parseCsr (.firstBlock t (some c) r) = .ok c) :=
  ⟨rfl, rfl, fun _ _ => rfl, fun _ _ c _ _ => by cases c <;> rfl, fun _ _ _ => rfl⟩

/-- The block-parsing loop succeeds exactly when every block parsed, and
then the blocks are the returned certificates in order. -/
lemma parseCertBlocks_ok_iff (bs : List (Option Certificate)) (cs : List Certificate) :
    parseCertBlocks bs = .ok cs ↔ bs = cs.map some := by
  induction bs generalizing cs with
  | nil => cases cs <;> simp [parseCertBlocks]
  | cons b rest ih =>
    cases b with
    | none =>
      cases cs <;> simp [parseCertBlocks]
    | some c =>
      cases h : parseCertBlocks rest with
      | error e =>
        simp only [parseCertBlocks, h, Except.map]
        constructor
        · intro hcontra
          exact absurd hcontra (by simp)
        · rintro hcs
          cases cs with
          | nil => simp at hcs
          | cons c1 cs1 =>
            simp only [List.map, List.cons.injEq, Option.some.injEq] at hcs
            have := (ih cs1).mpr hcs.2
            rw [this] at h
            cases h
      | ok cs0 =>
        have hrest := (ih cs0).mp h
        simp only [parseCertBlocks, h, Except.map]
        constructor
        · rintro hok
          cases hok
          simp [hrest]
        · intro hcs
          cases cs with
          | nil => simp at hcs
          | cons c1 cs1 =>
            simp only [List.map, List.cons.injEq, Option.some.injEq] at hcs
            obtain ⟨hc, htail⟩ := hcs
            have : parseCertBlocks rest = .ok cs1 := (ih cs1).mpr htail
            rw [this] at h
            cases h
            rw [hc]

/-- A list all of whose elements are `some` is the image of a list under
`some`. -/
lemma all_some_exists_map (bs : List (Option Certificate))
    (h : ∀ b ∈ bs, b ≠ none) : ∃ cs : List Certificate, bs = cs.map some := by
  induction bs with
  | nil => exact ⟨[], rfl⟩
  | cons b rest ih =>
    obtain ⟨cs, hcs⟩ := ih (fun x hx => h x (List.mem_cons_of_mem _ hx))
    cases b with
    | none => exact absurd rfl (h none (List.mem_cons_self _ _))
    | some c => exact ⟨c :: cs, by simp [hcs]⟩

/-- C5: `parseCertificateChain` succeeds exactly when the input has no
trailing undecodable remainder, yields at least one PEM block, and every
block parses as a certificate; on success the decoded blocks are, in input
order, precisely the returned certificates. -/
theorem parseCertificateChain_characterisation (s : PemChainInput) :
    ((∃ certs, parseCertificateChain s = .ok certs) ↔
      (s.trailing = false ∧ s.blocks ≠ [] ∧ ∀ b ∈ s.blocks, b ≠ none)) ∧
    (∀ certs, parseCertificateChain s = .ok certs → s.blocks = certs.map some) := by
  constructor
  · constructor
    · rintro ⟨certs, hok⟩
      unfold parseCertificateChain at hok
      by_cases ht : s.trailing
      · simp [ht] at hok
      · by_cases hb : s.blocks.isEmpty
        · simp [ht, hb] at hok
        · have hmap := (parseCertBlocks_ok_iff s.blocks certs).mp (by simpa [ht, hb] using hok)
          refine ⟨by simpa using ht, by simpa using hb, ?_⟩
          intro b hbmem
          rw [hmap] at hbmem
          obtain ⟨c, _, hc⟩ := List.mem_map.mp hbmem
          simp [← hc]
    · rintro ⟨ht, hb, hall⟩
      obtain ⟨cs, hcs⟩ := all_some_exists_map s.blocks hall
      refine ⟨cs, ?_⟩
      unfold parseCertificateChain
      simp [ht, List.isEmpty_iff, hb, (parseCertBlocks_ok_iff s.blocks cs).mpr hcs]
  · intro certs hok
    unfold parseCertificateChain at hok
    by_cases ht : s.trailing
    · simp [ht] at hok
    · by_cases hb : s.blocks.isEmpty
      · simp [ht, hb] at hok
      · exact (parseCertBlocks_ok_iff s.blocks certs).mp (by simpa [ht, hb] using hok)

/-- C5 witness: the characterisation applied to a concrete single-block
input: the decoded block list is the returned certificate list under
`some`. -/
theorem parseCertificateChain_characterisation_witness :
    singleRsaLeafInput.blocks = List.map some [rsaLeafCert] :=
  (parseCertificateChain_characterisation singleRsaLeafInput).2 [rsaLeafCert] rfl

/-- C6: a key whose type does not support signing makes
`pathSignCsrWrite` fail with the signing-unsupported error, whatever the
requested version and CSR-template input (the check precedes CSR
parsing). -/
theorem signCsr_rejects_nonsigning_key
    (store : PolicyStore) (req : SignCsrRequest) (p : Policy)
    (hstore : store req.name = .ok (some p))
    (hns : p.type.signingSupported = false) :
    pathSignCsrWrite store req = (.error (.signingUnsupported p.type), []) := by
  unfold pathSignCsrWrite
  rw [hstore]
  simp [hns]

/-- C6 witness: the symmetric AES-256 key rejects a request carrying a
malformed CSR template and an explicit version. -/
theorem signCsr_rejects_nonsigning_key_witness :
    pathSignCsrWrite aesStore ⟨"sym", some 5, .noBlock⟩ =
      (.error (.signingUnsupported .aes256_gcm96), []) :=
  signCsr_rejects_nonsigning_key aesStore ⟨"sym", some 5, .noBlock⟩ aesPolicy rfl rfl

/-- C7: the `switch`-based compatibility check of the import handler
coincides with the fixed spec table (ECDSA types only with ECDSA, ED25519
only with Ed25519, RSA types only with RSA, symmetric types with
nothing), and when the first certificate's algorithm is incompatible with
the key type the import fails with the key-type-mismatch error carrying
both the observed algorithm and the key type. -/
theorem importKeyTypeMatches_spec_table :
    (∀ t alg, importKeyTypeMatches t alg = specAlgorithmMatchesKeyType alg t) ∧
    (∀ (store : PolicyStore) (req : SetCertificateRequest) (p : Policy)
        (c0 : Certificate) (rest : List Certificate),
      store req.name = .ok (some p) →
      p.type.signingSupported = true →
      parseCertificateChain req.certificateChain = .ok (c0 :: rest) →
      hasSingleLeafCertificate (c0 :: rest) = true →
      specAlgorithmMatchesKeyType c0.publicKeyAlgorithm p.type = false →
      pathSetCertificateWrite store req =
        (.error (.keyTypeMismatch c0.publicKeyAlgorithm p.type), [])) := by
  have htable : ∀ t alg, importKeyTypeMatches t alg = specAlgorithmMatchesKeyType alg t := by
    intro t alg
    cases t <;> cases alg <;> rfl
  refine ⟨htable, ?_⟩
  intro store req p c0 rest hstore hsign hparse hleaf hmismatch
  have hmatch : importKeyTypeMatches p.type c0.publicKeyAlgorithm = false := by
    rw [htable, hmismatch]
  unfold pathSetCertificateWrite
  rw [hstore, hparse]
  simp [hsign, hleaf, hmatch]

/-- C7 witness: importing a single RSA leaf certificate onto the
ECDSA-P256 key fails with the mismatch error naming RSA and ECDSA-P256. -/
theorem importKeyTypeMatches_spec_table_witness :
    pathSetCertificateWrite ecdsaStore ⟨"leaf", none, singleRsaLeafInput⟩ =
      (.error (.keyTypeMismatch .rsa .ecdsa_p256), []) :=
  importKeyTypeMatches_spec_table.2 ecdsaStore ⟨"leaf", none, singleRsaLeafInput⟩
    ecdsaPolicy rsaLeafCert [] rfl rfl rfl rfl rfl

/-- Every run of the import handler either fails having performed no
persist call, or succeeds having performed exactly one. -/
lemma pathSetCertificateWrite_cases (store : PolicyStore) (req : SetCertificateRequest) :
    (∃ e, pathSetCertificateWrite store req = (.error e, [])) ∨
    (∃ v chain, pathSetCertificateWrite store req = (.ok (), [⟨v, chain⟩])) := by
  unfold pathSetCertificateWrite
  repeat' first
    | (exact .inl ⟨_, rfl⟩)
    | (exact .inr ⟨_, _, rfl⟩)
    | split
    | dsimp only

/-- C8: the import handler performs a persist call exactly on the runs
that report success — every validation failure returns with no persist
call performed — and it never performs more than one call. -/
theorem importCertificate_persist_is_final
    (store : PolicyStore) (req : SetCertificateRequest) :
    ((pathSetCertificateWrite store req).2 ≠ [] ↔
      (pathSetCertificateWrite store req).1 = .ok ()) ∧
    (pathSetCertificateWrite store req).2.length ≤ 1 := by
  rcases pathSetCertificateWrite_cases store req with ⟨e, h⟩ | ⟨v, chain, h⟩ <;>
    rw [h] <;> simp

/-- C9: a successful chain parse always yields a non-empty certificate
list, and consequently the import handler never reaches the
out-of-bounds `certChain[0]` access. -/
theorem parseCertificateChain_ok_nonempty :
    (∀ (s : PemChainInput) (certs : List Certificate),
      parseCertificateChain s = .ok certs → certs ≠ []) ∧
    (∀ (store : PolicyStore) (req : SetCertificateRequest),
      (pathSetCertificateWrite store req).1 ≠ .error .panicIndexOutOfRange) := by
  constructor
  · intro s certs hok hnil
    subst hnil
    unfold parseCertificateChain at hok
    by_cases ht : s.trailing
    · simp [ht] at hok
    · by_cases hb : s.blocks.isEmpty
      · simp [ht, hb] at hok
      · have hmap := (parseCertBlocks_ok_iff s.blocks []).mp (by simpa [ht, hb] using hok)
        simp at hmap
        exact hb (by simp [hmap])
  · intro store req
    unfold pathSetCertificateWrite
    repeat' first
      | split
      | dsimp only
    all_goals simp_all [hasSingleLeafCertificate]

/-- C9 witness: the first part applied to a concrete single-block input. -/
theorem parseCertificateChain_ok_nonempty_witness :
    ([rsaLeafCert] : List Certificate) ≠ [] :=
  parseCertificateChain_ok_nonempty.1 singleRsaLeafInput [rsaLeafCert] rfl

/-- C10: the sign handler performs no persist call on any path — only
the import handler mutates the persisted per-version certificate state. -/
theorem signCsr_no_persist_calls
    (store : PolicyStore) (req : SignCsrRequest) :
    (pathSignCsrWrite store req).2 = [] := by
  unfold pathSignCsrWrite
  repeat' first
    | rfl
    | split
    | dsimp only

end Transit
